import Mathlib

/-!
Shallow embedding of `src/fprime_gds_client_sample_script.py`.

The script defines a channel handler `SpecificChannel` keeping a last-value
mapping (a Python dict from channel name to the most recent sample), an
argument extension `ChannelNameParser`, and a driver `main` that builds a
pipeline, registers the handler and sleeps, handling exceptions on the way
out.  Python dicts are modelled as association lists with first-occurrence
update semantics (a real dict never holds duplicate keys, so replacing the
first occurrence is the dict's update); exceptions are modelled with an
explicit `PyExc` type and `Except`; the driver is a pure function of an
environment describing the outcomes of the external (framework) calls.
-/

set_option autoImplicit false

namespace GdsClientSample

/-- Python exceptions that the script can raise or catch.  `keyError` carries
the missing key (as `KeyError(name)` does), `nameError` carries the unbound
identifier, `otherError` stands for any other `Exception` with its text. -/
inductive PyExc where
  | keyboardInterrupt : PyExc
  | keyError (key : String) : PyExc
  | nameError (name : String) : PyExc
  | otherError (msg : String) : PyExc
deriving DecidableEq, Repr

/-- The text Python interpolates for an exception in an f-string:
`str(KeyError(k))` is the repr of `k`, a quoted string. -/
def PyExc.text : PyExc → String
  | .keyboardInterrupt => ""
  | .keyError k => "'" ++ k ++ "'"
  | .nameError n => "name '" ++ n ++ "' is not defined"
  | .otherError m => m

/-- A Python dict with string keys, as an association list in insertion
order. -/
abbrev PyDict (α : Type) : Type := List (String × α)

namespace PyDict

variable {α : Type}

/-- `d.keys()` of a Python dict: the keys in insertion order. -/
def keys (d : PyDict α) : List String :=
  d.map Prod.fst

/-- `d[k]` lookup (`none` models the raise of `KeyError(k)`). -/
def get? : PyDict α → String → Option α
  | [], _ => none
  | (k', v) :: rest, k => if k' = k then some v else get? rest k

/-- `d[k] = v`: overwrite the existing slot for `k`, or append a new one. -/
def set : PyDict α → String → α → PyDict α
  | [], k, v => [(k, v)]
  | (k', v') :: rest, k, v =>
      if k' = k then (k, v) :: rest else (k', v') :: set rest k v

end PyDict

/-- An fprime `ChannelTemplate` dictionary entry; the script only reads its
`id` field (line 57). -/
structure ChannelTemplate where
  id : Nat
deriving DecidableEq, Repr

/-- A decoded channel sample (`ChData`) delivered by the pipeline: a value
tagged with the originating channel's name and a timestamp.  `data_callback`
only reads `.name` and stores the whole object. -/
structure ChData where
  name : String
  value : Int
  time : Nat
deriving DecidableEq, Repr

/-- The `SpecificChannel` handler state: the `last_value` dict (channel name
to most recent sample, `none` = no sample yet) and the resolved channel id. -/
structure SpecificChannel where
  last_value : PyDict (Option ChData)
  id : Nat
deriving DecidableEq, Repr

/-- `SpecificChannel.__init__` (lines 41-57): pre-populate `last_value` with
`None` for every key of `channels_by_name`, then resolve
`channels_by_name[name].id`, which raises `KeyError(name)` if `name` is not a
key. -/
def SpecificChannel.init (channels_by_name : PyDict ChannelTemplate)
    (name : String) : Except PyExc SpecificChannel :=
  let last_value : PyDict (Option ChData) :=
    channels_by_name.keys.map (fun key => (key, (none : Option ChData)))
  match channels_by_name.get? name with
  | some entry => .ok { last_value := last_value, id := entry.id }
  | none => .error (.keyError name)

/-- `SpecificChannel.data_callback` (lines 59-65): store the incoming sample
under its own channel name, `self.last_value[data.name] = data`.  The
`sender` parameter is unused by the body and omitted here. -/
def SpecificChannel.data_callback (self : SpecificChannel) (data : ChData) :
    SpecificChannel :=
  { self with last_value := self.last_value.set data.name (some data) }

/-- `SpecificChannel.dump_data` (lines 67-69): the def takes no `self`
parameter, so any invocation through an instance raises a `TypeError` before
the body runs (and the body itself, line 68, is not even well formed).  Every
attempted call therefore raises. -/
def SpecificChannel.dump_data : Except PyExc Unit :=
  .error (.otherError "dump_data() takes 0 positional arguments but 1 was given")

/-- A value appearing in the argparse keyword-argument dict. -/
inductive ArgValue where
  | str (s : String) : ArgValue
  | bool (b : Bool) : ArgValue
deriving DecidableEq, Repr

/-- The argument namespace as used by this script: only `channel_name` is
ever read (line 125). -/
structure Args where
  channel_name : String
deriving DecidableEq, Repr

/-- `ChannelNameParser.get_arguments` (lines 82-96): the dict of flag tuples
to argparse keyword arguments, exactly as written in the source. -/
def ChannelNameParser.get_arguments : List (List String × PyDict ArgValue) :=
  [(["--channel-name"],
    [("dest", ArgValue.str "channel_name"),
     ("help", ArgValue.str "Name of channel to filter on"),
     ("required", ArgValue.bool true)])]

/-- `ChannelNameParser.handle_arguments` (lines 98-109): returns the supplied
argument namespace unchanged. -/
def ChannelNameParser.handle_arguments (args : Args) : Args :=
  args

/-- The pipeline's loaded dictionaries; the script reads
`pipeline.dictionaries.channel_name` (lines 125, 138). -/
structure Dictionaries where
  channel_name : PyDict ChannelTemplate
deriving DecidableEq, Repr

/-- The external pipeline object, as far as the script observes it. -/
structure Pipeline where
  dictionaries : Dictionaries
deriving DecidableEq, Repr

/-- The local names bound in the `try` block of `main` before the run loop
(lines 116-128): `arguments`, `pipeline`, `channel_handler`. -/
def mainLocalNames : List String :=
  ["arguments", "pipeline", "channel_handler"]

/-- One iteration of the run loop (lines 130-132): sleep, then evaluate
`chanbel_handler.dump_data()`.  `interrupted` is whether a
`KeyboardInterrupt` arrives during the sleep.  Otherwise the name
`chanbel_handler` is looked up among the bound locals; since it is misspelled
it is unbound and a `NameError` is raised before `dump_data` is reached.
The returned `Bool` records whether `dump_data` completed in this
iteration. -/
def loopIteration (interrupted : Bool) : Except PyExc Bool :=
  if interrupted then .error .keyboardInterrupt
  else if mainLocalNames.contains "chanbel_handler" then
    SpecificChannel.dump_data.map (fun _ => true)
  else .error (.nameError "chanbel_handler")

/-- Outcomes of the external framework calls that `main` performs, which the
script cannot influence: argument parsing (line 116), pipeline construction
(line 121), consumer registration (line 128), and whether a
`KeyboardInterrupt` arrives during the first sleep of the loop. -/
structure Env where
  parse : Except PyExc Args
  factory : Except PyExc Pipeline
  register : Except PyExc Unit
  interruptFirstSleep : Bool

/-- What happens inside the `try` block of `main` (lines 114-132):
which exception escapes it (`exc`), whether it would instead loop forever
(`diverged`), the value of the local `pipeline` if it was bound
(`pipelineVar`), whether registration completed, and whether `dump_data`
ever completed. -/
structure TryResult where
  exc : Option PyExc
  diverged : Bool
  pipelineVar : Option Pipeline
  registered : Bool
  dumpCompleted : Bool
deriving Repr

/-- The `try` block of `main`, step by step in source order:
`parse_args`, `pipeline_factory`, `SpecificChannel(...)`,
`register_channel_consumer`, then the `while True` loop.  Every iteration of
the loop raises (see `loopIteration`), so the body always ends in an
exception; the `diverged` case records the hypothetical normal iteration. -/
def tryBody (env : Env) : TryResult :=
  match env.parse with
  | .error e => ⟨some e, false, none, false, false⟩
  | .ok arguments =>
    match env.factory with
    | .error e => ⟨some e, false, none, false, false⟩
    | .ok pipeline =>
      match SpecificChannel.init pipeline.dictionaries.channel_name
          arguments.channel_name with
      | .error e => ⟨some e, false, some pipeline, false, false⟩
      | .ok _channel_handler =>
        match env.register with
        | .error e => ⟨some e, false, some pipeline, false, false⟩
        | .ok _ =>
          match loopIteration env.interruptFirstSleep with
          | .error e => ⟨some e, false, some pipeline, true, false⟩
          | .ok dumped => ⟨none, true, some pipeline, true, dumped⟩

/-- The observable outcome of one run of `main`. -/
structure MainOutcome where
  stderr : List String
  stdout : List String
  disconnectCalled : Bool
  dumpCompleted : Bool
  uncaught : Option PyExc
  diverged : Bool
deriving Repr

/-- The error line printed by the `except KeyError` arm (line 139). -/
def keyErrorMessage (k : String) (d : PyDict ChannelTemplate) : String :=
  "[ERROR] Unknown channel name: " ++ (PyExc.keyError k).text ++ "\n\t" ++
    String.intercalate "\n\t" d.keys

/-- The error line printed by the `except Exception` arm (line 142). -/
def genericErrorMessage (e : PyExc) : String :=
  "[ERROR] Failed to run example code: " ++ e.text

/-- The part of `main` after the `try` block (lines 133-143).  The three
`except` arms run in source order: `KeyboardInterrupt` is passed over
silently, `KeyError` prints the offending key with the valid channel names
(reading the local `pipeline`, which raises a `NameError` if `pipeline` was
never bound), and any other `Exception` prints a generic message.  After the
handler block, `pipeline.disconnect()` runs unconditionally; if `pipeline`
was never bound this is itself an unbound-local `NameError` and disconnect is
never invoked. -/
def mainAfterTry (t : TryResult) : MainOutcome :=
  if t.diverged then
    { stderr := [], stdout := [], disconnectCalled := false,
      dumpCompleted := t.dumpCompleted, uncaught := none, diverged := true }
  else
    let handled : List String × Option PyExc :=
      match t.exc with
      | none => ([], none)
      | some .keyboardInterrupt => ([], none)
      | some (.keyError k) =>
        match t.pipelineVar with
        | some p => ([keyErrorMessage k p.dictionaries.channel_name], none)
        | none => ([], some (.nameError "pipeline"))
      | some e => ([genericErrorMessage e], none)
    match handled.2 with
    | some e =>
      { stderr := handled.1, stdout := [], disconnectCalled := false,
        dumpCompleted := t.dumpCompleted, uncaught := some e, diverged := false }
    | none =>
      match t.pipelineVar with
      | some _ =>
        { stderr := handled.1, stdout := [], disconnectCalled := true,
          dumpCompleted := t.dumpCompleted, uncaught := none, diverged := false }
      | none =>
        { stderr := handled.1, stdout := [], disconnectCalled := false,
          dumpCompleted := t.dumpCompleted,
          uncaught := some (.nameError "pipeline"), diverged := false }

/-- `main` (lines 112-143): run the `try` block, then exception handling and
the final `pipeline.disconnect()`. -/
def mainModel (env : Env) : MainOutcome :=
  mainAfterTry (tryBody env)

/-- Whether, in the run described by `env`, pipeline construction was reached
and succeeded (so the local `pipeline` got bound). -/
def pipelineConstructed (env : Env) : Bool :=
  match env.parse, env.factory with
  | .ok _, .ok _ => true
  | _, _ => false

namespace PyDict

variable {α β : Type}

theorem get?_set_self (d : PyDict α) (k : String) (v : α) :
    (d.set k v).get? k = some v := by
  induction d with
  | nil => simp [set, get?]
  | cons p rest ih =>
    obtain ⟨a, b⟩ := p
    by_cases h : a = k
    · simp [set, get?, h]
    · simp [set, get?, h, ih]

theorem get?_set_other (d : PyDict α) (k k' : String) (v : α) (hne : k' ≠ k) :
    (d.set k v).get? k' = d.get? k' := by
  induction d with
  | nil => simp [set, get?, Ne.symm hne]
  | cons p rest ih =>
    obtain ⟨a, b⟩ := p
    by_cases h : a = k
    · subst h
      simp [set, get?, Ne.symm hne]
    · by_cases h' : a = k'
      · subst h'
        simp [set, get?, h]
      · simp [set, get?, h, h', ih]

theorem set_set (d : PyDict α) (k : String) (v w : α) :
    (d.set k v).set k w = d.set k w := by
  induction d with
  | nil => simp [set]
  | cons p rest ih =>
    obtain ⟨a, b⟩ := p
    by_cases h : a = k
    · simp [set, h]
    · simp [set, h, ih]

theorem keys_cons (p : String × α) (d : PyDict α) :
    keys (p :: d) = p.1 :: keys d :=
  rfl

theorem keys_set (d : PyDict α) (k : String) (v : α) :
    (d.set k v).keys =
      if (d.get? k).isSome then d.keys else d.keys ++ [k] := by
  induction d with
  | nil => simp [set, get?, keys]
  | cons p rest ih =>
    obtain ⟨a, b⟩ := p
    by_cases h : a = k
    · simp [set, get?, keys_cons, h]
    · simp only [set, get?, h, if_false, if_neg h, keys_cons, ih]
      by_cases h2 : (get? rest k).isSome <;> simp [h2]

theorem keys_map_const (L : List String) (x : β) :
    keys (L.map (fun key => (key, x))) = L := by
  induction L with
  | nil => rfl
  | cons a rest ih => simp [List.map_cons, keys_cons, ih]

theorem get?_map_const (L : List String) (x : β) (k : String) (hk : k ∈ L) :
    get? (L.map (fun key => (key, x))) k = some x := by
  induction L with
  | nil => cases hk
  | cons a rest ih =>
    rcases List.mem_cons.mp hk with rfl | hkr
    · simp [get?]
    · by_cases h : a = k
      · simp [get?, h]
      · simp [get?, h, ih hkr]

end PyDict

/-- Every iteration of the run loop raises: a `KeyboardInterrupt` if one
arrives during the sleep, otherwise the `NameError` for the misspelled
`chanbel_handler`. -/
theorem loopIteration_error (b : Bool) :
    loopIteration b =
      .error (if b then PyExc.keyboardInterrupt
              else PyExc.nameError "chanbel_handler") := by
  cases b <;> simp [loopIteration, mainLocalNames]

/-- The `try` block never completes a call to `dump_data`. -/
theorem tryBody_dumpCompleted (env : Env) :
    (tryBody env).dumpCompleted = false := by
  unfold tryBody
  repeat' split
  all_goals first
    | rfl
    | (rename_i hl
       rw [loopIteration_error] at hl
       simp at hl)

/-- The `try` block never diverges: every path out of it is an exception. -/
theorem tryBody_diverged (env : Env) :
    (tryBody env).diverged = false := by
  unfold tryBody
  repeat' split
  all_goals first
    | rfl
    | (rename_i hl
       rw [loopIteration_error] at hl
       simp at hl)

/-- Nothing in `main` ever writes to standard output. -/
theorem mainAfterTry_stdout (t : TryResult) :
    (mainAfterTry t).stdout = [] := by
  obtain ⟨exc, dv, pv, reg, dc⟩ := t
  cases dv
  · cases exc with
    | none => cases pv <;> rfl
    | some e => cases e <;> cases pv <;> rfl
  · rfl

/-- `mainAfterTry` passes the `dumpCompleted` flag through unchanged. -/
theorem mainAfterTry_dumpCompleted (t : TryResult) :
    (mainAfterTry t).dumpCompleted = t.dumpCompleted := by
  obtain ⟨exc, dv, pv, reg, dc⟩ := t
  cases dv
  · cases exc with
    | none => cases pv <;> rfl
    | some e => cases e <;> cases pv <;> rfl
  · rfl

/-- Disconnect is invoked exactly when the body did not diverge and the local
`pipeline` was bound. -/
theorem mainAfterTry_disconnectCalled (t : TryResult) :
    (mainAfterTry t).disconnectCalled = (!t.diverged && t.pipelineVar.isSome) := by
  obtain ⟨exc, dv, pv, reg, dc⟩ := t
  cases dv
  · cases exc with
    | none => cases pv <;> rfl
    | some e => cases e <;> cases pv <;> rfl
  · rfl

/-- The local `pipeline` is bound exactly when parsing and pipeline
construction both succeeded. -/
theorem tryBody_pipelineVar_isSome (env : Env) :
    (tryBody env).pipelineVar.isSome = pipelineConstructed env := by
  obtain ⟨p, f, r, i⟩ := env
  cases p <;> cases f <;>
    simp only [tryBody, pipelineConstructed] <;>
    (repeat' split) <;> rfl

/-- Claim C1: for every handler state and every delivered sample,
`data_callback` stores the sample in `last_value` under the sample's own
channel name, and every entry of the mapping at any other name is unchanged
by the call. -/
theorem claim_C1_store_and_frame (h : SpecificChannel) (d : ChData)
    (k : String) (hk : k ≠ d.name) :
    (h.data_callback d).last_value.get? d.name = some (some d) ∧
    (h.data_callback d).last_value.get? k = h.last_value.get? k := by
  constructor
  · exact PyDict.get?_set_self h.last_value d.name (some d)
  · exact PyDict.get?_set_other h.last_value d.name k (some d) hk

/-- Witness for C1 at the spec's end-to-end scenario. -/
theorem claim_C1_witness :
    ((SpecificChannel.data_callback ⟨[("blockDrv.BD_Cycles", none)], 7⟩
        ⟨"blockDrv.BD_Cycles", 1275, 1⟩).last_value.get? "blockDrv.BD_Cycles"
      = some (some ⟨"blockDrv.BD_Cycles", 1275, 1⟩)) ∧
    ((SpecificChannel.data_callback ⟨[("blockDrv.BD_Cycles", none)], 7⟩
        ⟨"blockDrv.BD_Cycles", 1275, 1⟩).last_value.get? "other"
      = PyDict.get? [("blockDrv.BD_Cycles", none)] "other") :=
  claim_C1_store_and_frame ⟨[("blockDrv.BD_Cycles", none)], 7⟩
    ⟨"blockDrv.BD_Cycles", 1275, 1⟩ "other" (by decide)

/-- Claim C2: for every channel dictionary and every name that is one of its
keys, construction succeeds and produces a `last_value` mapping whose key
set is exactly the dictionary's key set, with every key mapped to `None`. -/
theorem claim_C2_init_prepopulated (d : PyDict ChannelTemplate)
    (name : String) (t : ChannelTemplate) (hname : d.get? name = some t) :
    ∃ h, SpecificChannel.init d name = .ok h ∧
      h.last_value.keys = d.keys ∧
      ∀ k, k ∈ d.keys → h.last_value.get? k = some none := by
  refine ⟨⟨d.keys.map (fun key => (key, (none : Option ChData))), t.id⟩,
    ?_, ?_, ?_⟩
  · simp [SpecificChannel.init, hname]
  · exact PyDict.keys_map_const d.keys none
  · intro k hk
    exact PyDict.get?_map_const d.keys none k hk

/-- Witness for C2 at the spec's one-channel dictionary. -/
theorem claim_C2_witness :
    ∃ h, SpecificChannel.init [("blockDrv.BD_Cycles", ⟨7⟩)]
        "blockDrv.BD_Cycles" = .ok h ∧
      h.last_value.keys = PyDict.keys [("blockDrv.BD_Cycles", (⟨7⟩ : ChannelTemplate))] ∧
      ∀ k, k ∈ PyDict.keys [("blockDrv.BD_Cycles", (⟨7⟩ : ChannelTemplate))] →
        h.last_value.get? k = some none :=
  claim_C2_init_prepopulated [("blockDrv.BD_Cycles", ⟨7⟩)]
    "blockDrv.BD_Cycles" ⟨7⟩ (by decide)

/-- Claim C3: for every dictionary and every name that is not one of its
keys, construction fails with a `KeyError` carrying the missing name; when
this happens during driver setup the driver prints the offending key
together with the full list of valid channel names to standard error (and
that exception is consumed, not re-raised). -/
theorem claim_C3_unknown_name (d : PyDict ChannelTemplate) (name : String)
    (hname : d.get? name = none) (reg : Except PyExc Unit) (b : Bool) :
    SpecificChannel.init d name = .error (.keyError name) ∧
    (mainModel ⟨.ok ⟨name⟩, .ok ⟨⟨d⟩⟩, reg, b⟩).stderr =
      [keyErrorMessage name d] ∧
    (mainModel ⟨.ok ⟨name⟩, .ok ⟨⟨d⟩⟩, reg, b⟩).uncaught = none := by
  have hinit : SpecificChannel.init d name = .error (.keyError name) := by
    simp [SpecificChannel.init, hname]
  refine ⟨hinit, ?_, ?_⟩ <;>
    simp [mainModel, tryBody, hinit, mainAfterTry]

/-- Witness for C3 at the spec's unknown-name scenario. -/
theorem claim_C3_witness :
    SpecificChannel.init [("blockDrv.BD_Cycles", ⟨7⟩)] "doesNotExist"
      = .error (.keyError "doesNotExist") ∧
    (mainModel ⟨.ok ⟨"doesNotExist"⟩, .ok ⟨⟨[("blockDrv.BD_Cycles", ⟨7⟩)]⟩⟩,
        .ok (), false⟩).stderr =
      [keyErrorMessage "doesNotExist" [("blockDrv.BD_Cycles", ⟨7⟩)]] ∧
    (mainModel ⟨.ok ⟨"doesNotExist"⟩, .ok ⟨⟨[("blockDrv.BD_Cycles", ⟨7⟩)]⟩⟩,
        .ok (), false⟩).uncaught = none :=
  claim_C3_unknown_name [("blockDrv.BD_Cycles", ⟨7⟩)] "doesNotExist"
    (by decide) (.ok ()) false

/-- Claim C4: in every run of the driver, no call to `dump_data` ever
completes, and the per-sample print-out described in the module
documentation is never produced (standard output stays empty). -/
theorem claim_C4_dump_never_completes (env : Env) :
    (mainModel env).dumpCompleted = false ∧ (mainModel env).stdout = [] := by
  constructor
  · rw [mainModel, mainAfterTry_dumpCompleted, tryBody_dumpCompleted]
  · rw [mainModel, mainAfterTry_stdout]

/-- Claim C5: on every termination path of the driver, the pipeline's
disconnect operation is invoked exactly when pipeline construction was
reached and succeeded; if parsing or pipeline construction itself failed,
disconnect is skipped. -/
theorem claim_C5_disconnect_iff_pipeline (env : Env) :
    (mainModel env).disconnectCalled = pipelineConstructed env := by
  rw [mainModel, mainAfterTry_disconnectCalled, tryBody_diverged,
    tryBody_pipelineVar_isSome]
  simp

/-- Claim C6: a `KeyboardInterrupt` during the sleep loop (after a
successful setup) makes the driver exit silently — no stderr output, no
uncaught exception, no divergence — with pipeline disconnect invoked. -/
theorem claim_C6_interrupt_silent (args : Args) (p : Pipeline)
    (t : ChannelTemplate)
    (hname : p.dictionaries.channel_name.get? args.channel_name = some t) :
    (mainModel ⟨.ok args, .ok p, .ok (), true⟩).stderr = [] ∧
    (mainModel ⟨.ok args, .ok p, .ok (), true⟩).uncaught = none ∧
    (mainModel ⟨.ok args, .ok p, .ok (), true⟩).disconnectCalled = true ∧
    (mainModel ⟨.ok args, .ok p, .ok (), true⟩).diverged = false := by
  have hinit : ∃ ch, SpecificChannel.init p.dictionaries.channel_name
      args.channel_name = .ok ch := by
    simp [SpecificChannel.init, hname]
  obtain ⟨ch, hinit⟩ := hinit
  refine ⟨?_, ?_, ?_, ?_⟩ <;>
    simp [mainModel, tryBody, hinit, loopIteration, mainAfterTry]

/-- Witness for C6 at the spec's one-channel dictionary. -/
theorem claim_C6_witness :
    (mainModel ⟨.ok ⟨"blockDrv.BD_Cycles"⟩,
        .ok ⟨⟨[("blockDrv.BD_Cycles", ⟨7⟩)]⟩⟩, .ok (), true⟩).stderr = [] ∧
    (mainModel ⟨.ok ⟨"blockDrv.BD_Cycles"⟩,
        .ok ⟨⟨[("blockDrv.BD_Cycles", ⟨7⟩)]⟩⟩, .ok (), true⟩).uncaught = none ∧
    (mainModel ⟨.ok ⟨"blockDrv.BD_Cycles"⟩,
        .ok ⟨⟨[("blockDrv.BD_Cycles", ⟨7⟩)]⟩⟩, .ok (), true⟩).disconnectCalled
      = true ∧
    (mainModel ⟨.ok ⟨"blockDrv.BD_Cycles"⟩,
        .ok ⟨⟨[("blockDrv.BD_Cycles", ⟨7⟩)]⟩⟩, .ok (), true⟩).diverged
      = false :=
  claim_C6_interrupt_silent ⟨"blockDrv.BD_Cycles"⟩
    ⟨⟨[("blockDrv.BD_Cycles", ⟨7⟩)]⟩⟩ ⟨7⟩ (by decide)

/-- Claim C7: delivering two samples that carry the same channel name leaves
the handler in exactly the state produced by delivering the second alone —
an overwrite, not an accumulation. -/
theorem claim_C7_overwrite (h : SpecificChannel) (d1 d2 : ChData)
    (hn : d1.name = d2.name) :
    (h.data_callback d1).data_callback d2 = h.data_callback d2 := by
  simp [SpecificChannel.data_callback, hn, PyDict.set_set]

/-- Witness for C7 at two successive `blockDrv.BD_Cycles` samples. -/
theorem claim_C7_witness :
    (SpecificChannel.data_callback
        (SpecificChannel.data_callback ⟨[("blockDrv.BD_Cycles", none)], 7⟩
          ⟨"blockDrv.BD_Cycles", 1275, 1⟩)
        ⟨"blockDrv.BD_Cycles", 1277, 2⟩)
      = SpecificChannel.data_callback ⟨[("blockDrv.BD_Cycles", none)], 7⟩
          ⟨"blockDrv.BD_Cycles", 1277, 2⟩ :=
  claim_C7_overwrite ⟨[("blockDrv.BD_Cycles", none)], 7⟩
    ⟨"blockDrv.BD_Cycles", 1275, 1⟩ ⟨"blockDrv.BD_Cycles", 1277, 2⟩ rfl

/-- Claim C8: the argument extension exposes exactly one option, flag
`--channel-name` with destination `channel_name`, required, with no
default; and `handle_arguments` returns the supplied namespace unchanged. -/
theorem claim_C8_argument_contract :
    ∃ kwargs : PyDict ArgValue,
      ChannelNameParser.get_arguments = [(["--channel-name"], kwargs)] ∧
      kwargs.get? "dest" = some (ArgValue.str "channel_name") ∧
      kwargs.get? "required" = some (ArgValue.bool true) ∧
      kwargs.get? "default" = none ∧
      ∀ args : Args, ChannelNameParser.handle_arguments args = args := by
  refine ⟨_, rfl, ?_, ?_, ?_, fun _ => rfl⟩ <;> decide

/-- Claim C9: `data_callback` never fails and never drops a sample, even for
a channel name that was not a key of the construction dictionary: the
sample is stored under its name, and the key list afterwards is the old key
list when the name was already present, otherwise the old key list with the
name appended. -/
theorem claim_C9_unknown_sample_stored (h : SpecificChannel) (d : ChData) :
    (h.data_callback d).last_value.get? d.name = some (some d) ∧
    (h.data_callback d).last_value.keys =
      (if (h.last_value.get? d.name).isSome then h.last_value.keys
       else h.last_value.keys ++ [d.name]) := by
  constructor
  · exact PyDict.get?_set_self h.last_value d.name (some d)
  · exact PyDict.keys_set h.last_value d.name (some d)

/-- Claim C10: `data_callback` leaves the resolved channel `id` unchanged
and never reads it — two handlers with the same `last_value` but different
`id`s produce the same `last_value` on any delivered sample, so no
filtering by `id` is applied. -/
theorem claim_C10_no_id_filtering (h₁ h₂ : SpecificChannel) (d : ChData)
    (hlv : h₁.last_value = h₂.last_value) :
    (h₁.data_callback d).id = h₁.id ∧
    (h₁.data_callback d).last_value = (h₂.data_callback d).last_value := by
  simp [SpecificChannel.data_callback, hlv]

/-- Witness for C10: two handlers differing only in `id`. -/
theorem claim_C10_witness :
    ((⟨[], 1⟩ : SpecificChannel).data_callback ⟨"a", 0, 0⟩).id
      = (⟨[], 1⟩ : SpecificChannel).id ∧
    ((⟨[], 1⟩ : SpecificChannel).data_callback ⟨"a", 0, 0⟩).last_value
      = ((⟨[], 2⟩ : SpecificChannel).data_callback ⟨"a", 0, 0⟩).last_value :=
  claim_C10_no_id_filtering ⟨[], 1⟩ ⟨[], 2⟩ ⟨"a", 0, 0⟩ rfl

end GdsClientSample
